import Mathlib

set_option autoImplicit false

namespace Tinyaudio

/-- Output device parameters, from `OutputDeviceParameters` in src/lib.rs
(fields `sample_rate`, `channels_count`, `channel_sample_count`, all `usize`). -/
structure OutputDeviceParameters where
  sample_rate : Nat
  channels_count : Nat
  channel_sample_count : Nat
deriving DecidableEq, Repr

/-- Truncation toward zero of a rational: the value produced by a Rust
float-to-integer `as` cast for an in-range finite float. -/
def truncTowardZero (q : ℚ) : ℤ :=
  if 0 ≤ q then ⌊q⌋ else ⌈q⌉

/-- Saturating cast to the i16 range: the semantics of the Rust expression
`v as i16` for a finite float `v` (Rust saturating float-to-int cast). -/
def i16SaturatingCast (q : ℚ) : ℤ :=
  max (-32768) (min 32767 (truncTowardZero q))

/-- Format conversion performed by the feeders: the Rust expression
`(*in_sample * i16::MAX as f32) as i16`, from src/alsa.rs line 185,
src/directsound.rs line 327 and src/coreaudio.rs line 59, modelled over ℚ
(the product `x * 32767` is exact there; for the concrete refutation input
`x = 1/2` the f32 product `0.5 * 32767.0 = 16383.5` is also exact). -/
def float_to_native (x : ℚ) : ℤ :=
  i16SaturatingCast (x * 32767)

theorem truncTowardZero_mono {q r : ℚ} (h : q ≤ r) :
    truncTowardZero q ≤ truncTowardZero r := by
  unfold truncTowardZero
  by_cases hq : 0 ≤ q
  · rw [if_pos hq, if_pos (le_trans hq h)]
    exact Int.floor_mono h
  · rw [if_neg hq]
    by_cases hr : 0 ≤ r
    · rw [if_pos hr]
      have h1 : (⌈q⌉ : ℤ) ≤ 0 := by
        have := Int.ceil_mono (le_of_not_le hq)
        simpa using this
      have h2 : (0 : ℤ) ≤ ⌊r⌋ := by
        have := Int.floor_mono hr
        simpa using this
      omega
    · rw [if_neg hr]
      exact Int.ceil_mono h

theorem truncTowardZero_le {q : ℚ} {b : ℤ} (hb : 0 ≤ b) (h : q ≤ (b : ℚ)) :
    truncTowardZero q ≤ b := by
  unfold truncTowardZero
  by_cases hq : 0 ≤ q
  · rw [if_pos hq]
    calc ⌊q⌋ ≤ ⌊(b : ℚ)⌋ := Int.floor_mono h
      _ = b := Int.floor_intCast b
  · rw [if_neg hq]
    have h1 : (⌈q⌉ : ℤ) ≤ 0 := by
      have := Int.ceil_mono (le_of_not_le hq)
      simpa using this
    omega

theorem le_truncTowardZero {q : ℚ} {b : ℤ} (hb : b ≤ 0) (h : (b : ℚ) ≤ q) :
    b ≤ truncTowardZero q := by
  unfold truncTowardZero
  by_cases hq : 0 ≤ q
  · rw [if_pos hq]
    have h2 : (0 : ℤ) ≤ ⌊q⌋ := by
      have := Int.floor_mono hq
      simpa using this
    omega
  · rw [if_neg hq]
    exact Int.le_ceil_iff.mpr (by linarith)

/-- C5: the conversion does NOT round: at the in-range input `x = 1/2` the
code computes `16383` while `round (x * 32767) = 16384` (this is also the
value the specification scenario expects for a DC input of `0.5`). -/
theorem float_to_native_half_ne_round :
    float_to_native (1 / 2) = 16383 ∧
      round ((1 / 2 : ℚ) * 32767) = 16384 ∧
      float_to_native (1 / 2) ≠ round ((1 / 2 : ℚ) * 32767) := by
  have hfloor : ⌊(1 / 2 : ℚ) * 32767⌋ = 16383 := by
    rw [Int.floor_eq_iff]
    constructor <;> norm_num
  have hround : round ((1 / 2 : ℚ) * 32767) = 16384 := by
    rw [round_eq]
    rw [show (1 / 2 : ℚ) * 32767 + 1 / 2 = (16384 : ℚ) by norm_num]
    rw [Int.floor_eq_iff]
    constructor <;> norm_num
  have h1 : float_to_native (1 / 2) = 16383 := by
    unfold float_to_native i16SaturatingCast truncTowardZero
    rw [if_pos (by norm_num), hfloor]
    decide
  refine ⟨h1, hround, ?_⟩
  rw [h1, hround]
  decide

/-- C5 (amended): the 16-bit conversion computes truncation toward zero of
`x * 32767` (Rust `as` cast); for every `x` in `[-1, 1]` the result lies in
`[-32767, 32767]`, and the conversion is monotone. -/
theorem float_to_native_range_mono (x y : ℚ)
    (hx1 : -1 ≤ x) (hx2 : x ≤ 1) (hxy : x ≤ y) :
    float_to_native x = truncTowardZero (x * 32767) ∧
      -32767 ≤ float_to_native x ∧ float_to_native x ≤ 32767 ∧
      float_to_native x ≤ float_to_native y := by
  have hub : x * 32767 ≤ ((32767 : ℤ) : ℚ) := by
    have : ((32767 : ℤ) : ℚ) = (32767 : ℚ) := by norm_num
    rw [this]; nlinarith
  have hlb : ((-32767 : ℤ) : ℚ) ≤ x * 32767 := by
    have : ((-32767 : ℤ) : ℚ) = (-32767 : ℚ) := by norm_num
    rw [this]; nlinarith
  have ht1 : truncTowardZero (x * 32767) ≤ 32767 :=
    truncTowardZero_le (by norm_num) hub
  have ht2 : -32767 ≤ truncTowardZero (x * 32767) :=
    le_truncTowardZero (by norm_num) hlb
  have hmono : float_to_native x ≤ float_to_native y := by
    unfold float_to_native i16SaturatingCast
    have := truncTowardZero_mono (q := x * 32767) (r := y * 32767)
      (by nlinarith)
    omega
  refine ⟨?_, ?_, ?_, hmono⟩
  · unfold float_to_native i16SaturatingCast
    omega
  · unfold float_to_native i16SaturatingCast
    omega
  · unfold float_to_native i16SaturatingCast
    omega

/-- Witness for C5 (amended) at the concrete inputs `x = 1/2`, `y = 3/4`. -/
theorem float_to_native_range_mono_witness :
    float_to_native (1 / 2) = truncTowardZero ((1 / 2 : ℚ) * 32767) ∧
      -32767 ≤ float_to_native (1 / 2) ∧ float_to_native (1 / 2) ≤ 32767 ∧
      float_to_native (1 / 2) ≤ float_to_native (3 / 4) :=
  float_to_native_range_mono (1 / 2) (3 / 4) (by norm_num) (by norm_num)
    (by norm_num)

/-- The caller-facing handle, from `OutputDevice` in src/lib.rs:
`device: Option<Box<dyn BaseAudioOutputDevice>>`. `S` stands for the boxed
backend session. -/
structure OutputDevice (S : Type) where
  device : Option S
deriving DecidableEq

/-- State left by `OutputDevice::close` (src/lib.rs lines 74-76):
`self.device.take()` leaves `None` in the field. -/
def OutputDevice.closeState {S : Type} (_d : OutputDevice S) : OutputDevice S :=
  { device := none }

/-- The session dropped by one `close` call: `Option::take` hands out the
previous contents, whose drop joins the feeder and releases native
resources. A second call finds `None` and drops nothing. -/
def OutputDevice.closeDropped {S : Type} (d : OutputDevice S) : Option S :=
  d.device

/-- C9: `close` is idempotent. After `n ≥ 1` calls the handle state equals
the state after one call, and a call made on an already-closed handle drops
no session (so it neither joins a thread nor releases resources again). -/
theorem close_idempotent {S : Type} (d : OutputDevice S) (n : Nat) (h : 1 ≤ n) :
    OutputDevice.closeState^[n] d = OutputDevice.closeState d ∧
      OutputDevice.closeDropped (OutputDevice.closeState d) = none := by
  obtain ⟨m, rfl⟩ : ∃ m, n = m + 1 := ⟨n - 1, by omega⟩
  refine ⟨?_, rfl⟩
  rw [Function.iterate_succ_apply']
  rfl

/-- Witness for C9 at a concrete handle holding a session, with two calls. -/
theorem close_idempotent_witness :
    OutputDevice.closeState^[2] ({ device := some 0 } : OutputDevice Nat) =
        OutputDevice.closeState ({ device := some 0 } : OutputDevice Nat) ∧
      OutputDevice.closeDropped
          (OutputDevice.closeState ({ device := some 0 } : OutputDevice Nat)) =
        none :=
  close_idempotent { device := some 0 } 2 (by decide)

/-- Maximum sample rate accepted by PulseAudio, `PA_RATE_MAX = 8 * 48000`
from libpulse (used at src/pulse.rs line 119). -/
def PA_RATE_MAX : Nat := 8 * 48000

/-- Maximum channel count accepted by PulseAudio, `PA_CHANNELS_MAX = 32`
from libpulse (used at src/pulse.rs line 124). -/
def PA_CHANNELS_MAX : Nat := 32

/-- Largest value of a Rust `u32` (the `u32::try_from` bound at
src/pulse.rs line 117). -/
def u32Max : Nat := 4294967295

/-- Largest value of a Rust `u8` (the `u8::try_from` bound at
src/pulse.rs line 122). -/
def u8Max : Nat := 255

/-- Outcome of the context state poll loop of `run`
(src/pulse.rs lines 104-115). -/
inductive PulseConnection
  | ready
  | failed
  | terminated
  | iterateFailed
deriving DecidableEq

/-- Return values of the fallible native PulseAudio calls made by `run`
(src/pulse.rs lines 76-236), in program order. The pure parameter checks are
not part of the environment: they are computed from the parameters. -/
structure PulseEnv where
  mainloopNewOk : Bool
  mainloopApiOk : Bool
  contextNewOk : Bool
  contextConnectCode : Int
  connection : PulseConnection
  specValid : Bool
  streamNewOk : Bool
  connectPlaybackCode : Int
  errString : String

/-- Result of the PulseAudio feeder-thread function `run`. -/
inductive PulseRunOutcome
  | errorResult (msg : String)
  | earlyOk
  | streaming (callbackBufferLen : Nat)
deriving DecidableEq

/-- The PulseAudio feeder-thread function `run` (src/pulse.rs lines 68-251),
up to the point where the stream is connected and the pump loop starts.
The `streaming` outcome carries the length of the buffer the write callback
hands to the producer: `vec![0.; params.channel_sample_count]`
(src/pulse.rs line 156). -/
def pulseRun (env : PulseEnv) (p : OutputDeviceParameters) : PulseRunOutcome :=
  if env.mainloopNewOk = false then
    .errorResult "failed to create PulseAudio mainloop"
  else if env.mainloopApiOk = false then
    .errorResult "failed to get PulseAudio mainloop api"
  else if env.contextNewOk = false then
    .errorResult "failed to create PulseAudio context"
  else if env.contextConnectCode < 0 then .errorResult env.errString
  else
    match env.connection with
    | .failed => .errorResult "the connection failed or was disconnected"
    | .terminated => .earlyOk
    | .iterateFailed => .errorResult env.errString
    | .ready =>
      if ¬(p.sample_rate ≤ u32Max ∧ p.sample_rate ≤ PA_RATE_MAX) then
        .errorResult "sample rate exceeds maximum value"
      else if ¬(p.channels_count ≤ u8Max ∧ p.channels_count ≤ PA_CHANNELS_MAX) then
        .errorResult "channels count exceeds maximum value"
      else if env.specValid = false then .errorResult "spec is not valid"
      else if env.streamNewOk = false then .errorResult env.errString
      else if p.channel_sample_count % p.channels_count ≠ 0 then
        .errorResult
          "the length of the data to write (in bytes) must be in multiples of the stream sample spec frame size"
      else if env.connectPlaybackCode < 0 then .errorResult env.errString
      else .streaming p.channel_sample_count

/-- An environment in which every native PulseAudio call succeeds. -/
def goodPulseEnv : PulseEnv :=
  { mainloopNewOk := true
    mainloopApiOk := true
    contextNewOk := true
    contextConnectCode := 0
    connection := .ready
    specValid := true
    streamNewOk := true
    connectPlaybackCode := 0
    errString := "" }

/-- `goodPulseEnv` except that `pa_mainloop_new` fails (returns null). -/
def badPulseEnv : PulseEnv :=
  { goodPulseEnv with mainloopNewOk := false }

/-- Length of the buffer handed to the producer callback by the ALSA feeder:
`data_buffer: vec![0.0f32; params.channel_sample_count * params.channels_count]`
(src/alsa.rs line 124, passed to the callback at line 179). -/
def alsaCallbackBufferLen (p : OutputDeviceParameters) : Nat :=
  p.channel_sample_count * p.channels_count

/-- Length of the buffer handed to the producer callback by the DirectSound
feeder: `vec![0.0; self.channel_sample_count * self.channels_count]`
(src/directsound.rs line 282, passed to the callback at line 286). -/
def dsCallbackBufferLen (p : OutputDeviceParameters) : Nat :=
  p.channel_sample_count * p.channels_count

/-- Length of the region handed to the producer callback by the AAudio data
callback: the queue grows by `channel_sample_count * channels_count` and the
callback fills exactly that tail region (src/aaudio.rs lines 39-56, checked
by the debug assertion at lines 52-55). -/
def aaudioCallbackBufferLen (p : OutputDeviceParameters) : Nat :=
  p.channel_sample_count * p.channels_count

/-- Length of the buffer handed to the producer callback by the CoreAudio
render callback: `mix_buffer: vec![0.0; channel_sample_count * channels_count]`
(src/coreaudio.rs line 97, passed to the callback at line 54). -/
def coreaudioCallbackBufferLen (p : OutputDeviceParameters) : Nat :=
  p.channel_sample_count * p.channels_count

/-- Length of the buffer handed to the producer callback by the WebAudio
feeder: `vec![0.0f32; channel_sample_count * channels_count]`
(src/web.rs lines 173-174, passed to the callback at line 192). -/
def webCallbackBufferLen (p : OutputDeviceParameters) : Nat :=
  p.channel_sample_count * p.channels_count

/-- The scenario parameter record used by the specification:
44100 Hz, stereo, 4410 frames per period. -/
def scenarioParams : OutputDeviceParameters :=
  { sample_rate := 44100, channels_count := 2, channel_sample_count := 4410 }

/-- C1: refuted by the PulseAudio backend. At the specification's own
scenario parameters every backend hands the producer a buffer of length
`channels_count * channel_sample_count = 8820` except PulseAudio, whose
write callback hands it a buffer of length `channel_sample_count = 4410`
(src/pulse.rs line 156). -/
theorem pulse_callback_buffer_len_mismatch :
    alsaCallbackBufferLen scenarioParams = 8820 ∧
      dsCallbackBufferLen scenarioParams = 8820 ∧
      aaudioCallbackBufferLen scenarioParams = 8820 ∧
      coreaudioCallbackBufferLen scenarioParams = 8820 ∧
      webCallbackBufferLen scenarioParams = 8820 ∧
      pulseRun goodPulseEnv scenarioParams = .streaming 4410 ∧
      (4410 : Nat) ≠
        scenarioParams.channels_count * scenarioParams.channel_sample_count := by
  refine ⟨rfl, rfl, rfl, rfl, rfl, ?_, by decide⟩
  decide

/-- The native ALSA calls attempted by `AlsaSoundDevice::new`
(src/alsa.rs lines 55-117), in program order, carrying the
parameter-derived argument each call receives. Arguments cast to the C
`unsigned int` by a Rust `as` cast are reduced mod `2 ^ 32`. -/
inductive AlsaCall
  | pcmOpen
  | hwParamsMalloc
  | hwParamsAny
  | setAccess
  | setFormat
  | setRateNear (rate : Nat)
  | setChannels (channels : Nat)
  | setPeriodSizeNear (frames : Nat)
  | setBufferSizeNear (frames : Nat)
  | hwParams
  | swParamsMalloc
  | swParamsCurrent
  | setAvailMin (frames : Nat)
  | setStartThreshold (frames : Nat)
  | swParams
  | prepare
deriving DecidableEq

/-- The checked call sequence of `AlsaSoundDevice::new`
(src/alsa.rs lines 55-117); note there is no parameter check before it. -/
def alsaNewCalls (p : OutputDeviceParameters) : List AlsaCall :=
  [AlsaCall.pcmOpen, AlsaCall.hwParamsMalloc, AlsaCall.hwParamsAny,
    AlsaCall.setAccess, AlsaCall.setFormat,
    AlsaCall.setRateNear (p.sample_rate % 2 ^ 32),
    AlsaCall.setChannels (p.channels_count % 2 ^ 32),
    AlsaCall.setPeriodSizeNear p.channel_sample_count,
    AlsaCall.setBufferSizeNear (p.channel_sample_count * 2),
    AlsaCall.hwParams, AlsaCall.swParamsMalloc, AlsaCall.swParamsCurrent,
    AlsaCall.setAvailMin p.channel_sample_count,
    AlsaCall.setStartThreshold p.channel_sample_count,
    AlsaCall.swParams, AlsaCall.prepare]

/-- Execution of a sequence of native calls each wrapped in `check(..)?`:
the environment gives the return code of the i-th call and `check` fails on
a negative code (src/alsa.rs lines 35-41). Returns the calls actually
attempted and whether the constructor reached the end of the sequence. -/
def runCheckedCalls {α : Type} (env : Nat → Int) : Nat → List α → List α × Bool
  | _, [] => ([], true)
  | i, c :: cs =>
    if env i < 0 then ([c], false)
    else ((c :: (runCheckedCalls env (i + 1) cs).1, (runCheckedCalls env (i + 1) cs).2))

theorem runCheckedCalls_allOk {α : Type} (env : Nat → Int)
    (h : ∀ j, 0 ≤ env j) (cs : List α) :
    ∀ i : Nat, runCheckedCalls env i cs = (cs, true) := by
  induction cs with
  | nil => intro i; rfl
  | cons c cs ih =>
    intro i
    unfold runCheckedCalls
    rw [if_neg (by have := h i; omega)]
    rw [ih (i + 1)]

theorem runCheckedCalls_ok_env {α : Type} (env : Nat → Int) (cs : List α) :
    ∀ i : Nat, (runCheckedCalls env i cs).2 = true →
      ∀ j, j < cs.length → 0 ≤ env (i + j) := by
  induction cs with
  | nil =>
    intro i _ j hj
    simp at hj
  | cons c cs ih =>
    intro i h j hj
    unfold runCheckedCalls at h
    by_cases hc : env i < 0
    · rw [if_pos hc] at h
      simp at h
    · rw [if_neg hc] at h
      cases j with
      | zero =>
        have : (0 : Int) ≤ env i := by omega
        simpa using this
      | succ j =>
        have hrec := ih (i + 1) h j (by simp at hj; omega)
        have : i + 1 + j = i + (j + 1) := by omega
        rwa [this] at hrec

/-- The all-zero parameter record: it violates every documented constraint
(`channels_count ≥ 1`, `sample_rate > 0`, `channel_sample_count > 0`). -/
def invalidParams : OutputDeviceParameters :=
  { sample_rate := 0, channels_count := 0, channel_sample_count := 0 }

/-- An environment in which every native call returns code 0 (success). -/
def allOkCodes : Nat → Int := fun _ => 0

/-- C3 counterexample: `run_output_device` (src/lib.rs lines 113-187)
performs no parameter validation. With the all-zero parameter record the
ALSA constructor attempts its whole native call sequence, forwarding the
invalid values (`set_channels 0`, `set_rate_near 0`) to the native API, and
when every native call succeeds the factory reports success instead of any
descriptive error. -/
theorem factory_forwards_invalid_params :
    (invalidParams.channels_count < 1 ∧ invalidParams.sample_rate = 0 ∧
        invalidParams.channel_sample_count = 0) ∧
      (runCheckedCalls allOkCodes 0 (alsaNewCalls invalidParams)).2 = true ∧
      AlsaCall.setChannels 0 ∈
        (runCheckedCalls allOkCodes 0 (alsaNewCalls invalidParams)).1 ∧
      AlsaCall.setRateNear 0 ∈
        (runCheckedCalls allOkCodes 0 (alsaNewCalls invalidParams)).1 := by
  decide

/-- C3 (amended): the factory performs no parameter validation; any
parameter record, valid or not, is forwarded to the native API unchanged
(mod the integer casts), and when every native call succeeds the factory
succeeds. Errors for bad parameters can only come from the native layer. -/
theorem factory_no_validation (p : OutputDeviceParameters) (env : Nat → Int)
    (h : ∀ j, 0 ≤ env j) :
    (runCheckedCalls env 0 (alsaNewCalls p)).2 = true ∧
      AlsaCall.setChannels (p.channels_count % 2 ^ 32) ∈
        (runCheckedCalls env 0 (alsaNewCalls p)).1 ∧
      AlsaCall.setRateNear (p.sample_rate % 2 ^ 32) ∈
        (runCheckedCalls env 0 (alsaNewCalls p)).1 := by
  rw [runCheckedCalls_allOk env h (alsaNewCalls p) 0]
  refine ⟨rfl, ?_, ?_⟩ <;> simp [alsaNewCalls]

/-- Witness for C3 (amended) at the all-zero record and the all-success
environment. -/
theorem factory_no_validation_witness :
    (runCheckedCalls allOkCodes 0 (alsaNewCalls invalidParams)).2 = true ∧
      AlsaCall.setChannels (invalidParams.channels_count % 2 ^ 32) ∈
        (runCheckedCalls allOkCodes 0 (alsaNewCalls invalidParams)).1 ∧
      AlsaCall.setRateNear (invalidParams.sample_rate % 2 ^ 32) ∈
        (runCheckedCalls allOkCodes 0 (alsaNewCalls invalidParams)).1 :=
  factory_no_validation invalidParams allOkCodes (fun _ => le_refl 0)

/-- Result of `PulseSoundDevice::new` (src/pulse.rs lines 48-66): it spawns
the feeder thread and returns Ok immediately; the payload of `.ok` is the
result the spawned `run` will produce later, on the thread. Only a
thread-spawn failure makes this factory fail. -/
def pulseNew (spawnOk : Bool) (env : PulseEnv) (p : OutputDeviceParameters) :
    Except String PulseRunOutcome :=
  if spawnOk then .ok (pulseRun env p)
  else .error "failed to spawn feeder thread"

/-- C4 counterexample: in the PulseAudio backend, with an environment where
`pa_mainloop_new` fails, the factory still returns Ok — native acquisition
has not succeeded (it has not even been attempted) when the factory
returns. -/
theorem pulse_factory_ok_despite_failed_acquisition :
    pulseNew true badPulseEnv scenarioParams =
        .ok (.errorResult "failed to create PulseAudio mainloop") ∧
      (pulseNew true badPulseEnv scenarioParams).isOk = true := by
  exact ⟨rfl, rfl⟩

/-- C4 (amended): for the ALSA backend the factory is synchronous — if it
reports success then every native acquisition call has succeeded; for the
PulseAudio backend the factory returns Ok whatever the acquisition
environment, because acquisition runs later on the spawned feeder thread. -/
theorem factory_sync_alsa_async_pulse (p : OutputDeviceParameters)
    (env : Nat → Int) (penv : PulseEnv) :
    ((runCheckedCalls env 0 (alsaNewCalls p)).2 = true →
        ∀ j, j < (alsaNewCalls p).length → 0 ≤ env j) ∧
      (pulseNew true penv p).isOk = true := by
  constructor
  · intro h j hj
    have hrec := runCheckedCalls_ok_env env (alsaNewCalls p) 0 h j hj
    simpa using hrec
  · rfl

/-- Witness for C4 (amended) at the scenario record, the all-success ALSA
environment and the failing PulseAudio environment. -/
theorem factory_sync_alsa_async_pulse_witness :
    (0 : Int) ≤ allOkCodes 6 ∧
      (pulseNew true badPulseEnv scenarioParams).isOk = true :=
  ⟨(factory_sync_alsa_async_pulse scenarioParams allOkCodes badPulseEnv).1
      (by decide) 6 (by decide),
    (factory_sync_alsa_async_pulse scenarioParams allOkCodes badPulseEnv).2⟩

/-- The native DirectSound calls attempted by `DirectSoundDevice::new`
(src/directsound.rs lines 155-214), in program order, with their
parameter-derived byte arguments (`DeviceSample` is `i16`, two bytes). -/
inductive DsCall
  | directSoundCreate
  | setCooperativeLevel
  | createSoundBuffer (bufferBytes : Nat)
  | queryNotifyInterface
  | setNotificationPositions (offsets : List Nat)
  | play
deriving DecidableEq

/-- One half of the DirectSound ring, in bytes:
`buffer_len_bytes = channels_count * byte_per_sample * channel_sample_count`
(src/directsound.rs line 132). -/
def dsBufferLenBytes (p : OutputDeviceParameters) : Nat :=
  p.channels_count * 2 * p.channel_sample_count

/-- The checked call sequence of `DirectSoundDevice::new`; the ring is two
halves (`dwBufferBytes = 2 * buffer_len_bytes`, src/directsound.rs line 149)
and the notification positions are offsets 0 and `dwBufferBytes / 2`
(src/directsound.rs lines 192-201). No call depends on any divisibility
between `channel_sample_count` and `channels_count`. -/
def dsNewCalls (p : OutputDeviceParameters) : List DsCall :=
  [DsCall.directSoundCreate, DsCall.setCooperativeLevel,
    DsCall.createSoundBuffer (2 * dsBufferLenBytes p),
    DsCall.queryNotifyInterface,
    DsCall.setNotificationPositions [0, 2 * dsBufferLenBytes p / 2],
    DsCall.play]

/-- C10: with a healthy native environment, the PulseAudio feeder rejects
every parameter record whose `channel_sample_count` is not a multiple of
`channels_count` (src/pulse.rs lines 152-154) even when the record satisfies
the documented constraints, while the ALSA and DirectSound constructors run
their whole native call sequence successfully on the same record — no other
backend imposes the restriction. -/
theorem pulse_modulus_restriction (p : OutputDeviceParameters)
    (hcc1 : 1 ≤ p.channels_count) (hsr : p.sample_rate ≤ PA_RATE_MAX)
    (hcc : p.channels_count ≤ PA_CHANNELS_MAX)
    (hmod : p.channel_sample_count % p.channels_count ≠ 0) :
    pulseRun goodPulseEnv p =
        .errorResult
          "the length of the data to write (in bytes) must be in multiples of the stream sample spec frame size" ∧
      (runCheckedCalls allOkCodes 0 (alsaNewCalls p)).2 = true ∧
      (runCheckedCalls allOkCodes 0 (dsNewCalls p)).2 = true := by
  have h1 : p.sample_rate ≤ u32Max := by
    unfold u32Max
    unfold PA_RATE_MAX at hsr
    omega
  have h2 : p.channels_count ≤ u8Max := by
    unfold u8Max
    unfold PA_CHANNELS_MAX at hcc
    omega
  refine ⟨?_, ?_, ?_⟩
  · simp [pulseRun, goodPulseEnv, h1, h2, hsr, hcc, hmod]
  · rw [runCheckedCalls_allOk allOkCodes (fun _ => le_refl 0) (alsaNewCalls p) 0]
  · rw [runCheckedCalls_allOk allOkCodes (fun _ => le_refl 0) (dsNewCalls p) 0]

/-- A parameter record satisfying the documented constraints whose
`channel_sample_count` is not a multiple of `channels_count`. -/
def modulusParams : OutputDeviceParameters :=
  { sample_rate := 44100, channels_count := 4, channel_sample_count := 4410 }

/-- Witness for C10 at the concrete record `{44100, 4, 4410}`
(`4410 % 4 = 2`). -/
theorem pulse_modulus_restriction_witness :
    pulseRun goodPulseEnv modulusParams =
        .errorResult
          "the length of the data to write (in bytes) must be in multiples of the stream sample spec frame size" ∧
      (runCheckedCalls allOkCodes 0 (alsaNewCalls modulusParams)).2 = true ∧
      (runCheckedCalls allOkCodes 0 (dsNewCalls modulusParams)).2 = true :=
  pulse_modulus_restriction modulusParams (by decide) (by decide) (by decide)
    (by decide)

/-- Events of the ALSA feeder loop `run_send_loop`
(src/alsa.rs lines 177-205). -/
inductive AlsaEvent
  | produce
  | write (buf : List Int)
  | recover
deriving DecidableEq

/-- Whether an event is an invocation of the producer callback. -/
def AlsaEvent.isProduce : AlsaEvent → Bool
  | .produce => true
  | _ => false

/-- Whether an event is a `snd_pcm_writei` attempt. -/
def AlsaEvent.isWrite : AlsaEvent → Bool
  | .write _ => true
  | _ => false

/-- Whether an event is a `snd_pcm_recover` call. -/
def AlsaEvent.isRecover : AlsaEvent → Bool
  | .recover => true
  | _ => false

/-- The bounded retry loop of the ALSA feeder
(`for _ in 0..10`, src/alsa.rs lines 188-203): attempt `snd_pcm_writei`
with the already-converted buffer; on a negative return code call
`snd_pcm_recover` and loop; on success leave the loop at once. `w` gives
the return code of the a-th write attempt of this period; `fuel` is the
remaining trip count of the `for` loop. -/
def alsaTryLoop (buf : List Int) (w : Nat → Int) : Nat → Nat → List AlsaEvent
  | 0, _ => []
  | fuel + 1, a =>
    AlsaEvent.write buf ::
      (if w a < 0 then AlsaEvent.recover :: alsaTryLoop buf w fuel (a + 1)
        else [])

/-- One iteration of the ALSA feeder loop (src/alsa.rs lines 178-204): the
producer is invoked once into `data_buffer`, the whole buffer is converted
once by the format cast (line 185), then the retry loop runs on the
converted buffer. -/
def alsaPeriod (produced : List ℚ) (w : Nat → Int) : List AlsaEvent :=
  AlsaEvent.produce :: alsaTryLoop (produced.map float_to_native) w 10 0

theorem alsaTryLoop_no_produce (buf : List Int) (w : Nat → Int) :
    ∀ fuel a, (alsaTryLoop buf w fuel a).countP AlsaEvent.isProduce = 0 := by
  intro fuel
  induction fuel with
  | zero => intro a; rfl
  | succ fuel ih =>
    intro a
    unfold alsaTryLoop
    by_cases hw : w a < 0
    · rw [if_pos hw]
      simp [List.countP_cons, AlsaEvent.isProduce, ih (a + 1)]
    · rw [if_neg hw]
      simp [List.countP_cons, AlsaEvent.isProduce]

theorem alsaTryLoop_write_le (buf : List Int) (w : Nat → Int) :
    ∀ fuel a, (alsaTryLoop buf w fuel a).countP AlsaEvent.isWrite ≤ fuel := by
  intro fuel
  induction fuel with
  | zero => intro a; simp [alsaTryLoop]
  | succ fuel ih =>
    intro a
    unfold alsaTryLoop
    by_cases hw : w a < 0
    · rw [if_pos hw]
      have := ih (a + 1)
      simp [List.countP_cons, AlsaEvent.isWrite, AlsaEvent.isRecover]
      omega
    · rw [if_neg hw]
      simp [List.countP_cons, AlsaEvent.isWrite]

theorem alsaTryLoop_write_mem (buf : List Int) (w : Nat → Int) :
    ∀ fuel a b, AlsaEvent.write b ∈ alsaTryLoop buf w fuel a → b = buf := by
  intro fuel
  induction fuel with
  | zero => intro a b hb; simp [alsaTryLoop] at hb
  | succ fuel ih =>
    intro a b hb
    unfold alsaTryLoop at hb
    by_cases hw : w a < 0
    · rw [if_pos hw] at hb
      simp only [List.mem_cons] at hb
      rcases hb with hb | hb | hb
      · simpa using hb
      · simp at hb
      · exact ih (a + 1) b hb
    · rw [if_neg hw] at hb
      simp only [List.mem_cons, List.not_mem_nil, or_false] at hb
      simpa using hb

theorem alsaTryLoop_success (buf : List Int) (w : Nat → Int) :
    ∀ j fuel a, j < fuel → (∀ k, k < j → w (a + k) < 0) → 0 ≤ w (a + j) →
      (alsaTryLoop buf w fuel a).countP AlsaEvent.isWrite = j + 1 ∧
        (alsaTryLoop buf w fuel a).countP AlsaEvent.isRecover = j := by
  intro j
  induction j with
  | zero =>
    intro fuel a hfuel _ hsucc
    obtain ⟨f, rfl⟩ : ∃ f, fuel = f + 1 := ⟨fuel - 1, by omega⟩
    unfold alsaTryLoop
    rw [if_neg (by simp at hsucc; omega)]
    constructor <;>
      simp [List.countP_cons, AlsaEvent.isWrite, AlsaEvent.isRecover]
  | succ j ih =>
    intro fuel a hfuel hfail hsucc
    obtain ⟨f, rfl⟩ : ∃ f, fuel = f + 1 := ⟨fuel - 1, by omega⟩
    unfold alsaTryLoop
    rw [if_pos (by have := hfail 0 (by omega); simpa using this)]
    have hrec := ih f (a + 1) (by omega)
      (fun k hk => by
        have := hfail (k + 1) (by omega)
        have harith : a + (k + 1) = a + 1 + k := by omega
        rwa [harith] at this)
      (by
        have harith : a + (j + 1) = a + 1 + j := by omega
        rwa [harith] at hsucc)
    constructor <;>
      simp [List.countP_cons, AlsaEvent.isWrite, AlsaEvent.isRecover,
        hrec.1, hrec.2]

/-- C6: per feeder-loop iteration the producer is invoked exactly once; the
retry loop attempts at most ten writes, every write re-sends the same
already-converted buffer, and if the first `j` writes fail (`j < 10`) while
attempt `j` succeeds, the period performs exactly `j + 1` writes and `j`
recover calls — a successful write ends the retry loop immediately. -/
theorem alsa_retry_policy (produced : List ℚ) (w : Nat → Int) :
    (alsaPeriod produced w).countP AlsaEvent.isProduce = 1 ∧
      (alsaPeriod produced w).countP AlsaEvent.isWrite ≤ 10 ∧
      (∀ b, AlsaEvent.write b ∈ alsaPeriod produced w →
        b = produced.map float_to_native) ∧
      ∀ j, j < 10 → (∀ a, a < j → w a < 0) → 0 ≤ w j →
        (alsaPeriod produced w).countP AlsaEvent.isWrite = j + 1 ∧
          (alsaPeriod produced w).countP AlsaEvent.isRecover = j := by
  refine ⟨?_, ?_, ?_, ?_⟩
  · unfold alsaPeriod
    simp [List.countP_cons, AlsaEvent.isProduce,
      alsaTryLoop_no_produce (produced.map float_to_native) w 10 0]
  · unfold alsaPeriod
    have := alsaTryLoop_write_le (produced.map float_to_native) w 10 0
    simp [List.countP_cons, AlsaEvent.isWrite]
    omega
  · intro b hb
    unfold alsaPeriod at hb
    simp only [List.mem_cons] at hb
    rcases hb with hb | hb
    · simp at hb
    · exact alsaTryLoop_write_mem (produced.map float_to_native) w 10 0 b hb
  · intro j hj hfail hsucc
    have hrec := alsaTryLoop_success (produced.map float_to_native) w j 10 0 hj
      (fun k hk => by simpa using hfail k hk) (by simpa using hsucc)
    unfold alsaPeriod
    constructor <;>
      simp [List.countP_cons, AlsaEvent.isWrite, AlsaEvent.isRecover,
        hrec.1, hrec.2]

/-- A write environment whose first three attempts fail and whose fourth
succeeds. -/
def threeFailCodes : Nat → Int := fun a => if a < 3 then -32 else 0

/-- Witness for C6 at a one-sample buffer and `threeFailCodes`: one producer
invocation, four writes, three recover calls. -/
theorem alsa_retry_policy_witness :
    (alsaPeriod [(1 : ℚ) / 2] threeFailCodes).countP AlsaEvent.isWrite = 3 + 1 ∧
      (alsaPeriod [(1 : ℚ) / 2] threeFailCodes).countP AlsaEvent.isRecover = 3 :=
  (alsa_retry_policy [(1 : ℚ) / 2] threeFailCodes).2.2.2 3 (by decide)
    (fun a ha => by
      unfold threeFailCodes
      rw [if_pos ha]
      decide)
    (by decide)

/-- The notification offsets registered by `DirectSoundDevice::new`
(src/directsound.rs lines 192-201): event 0 fires when the play cursor
reaches byte 0 of the ring, event 1 when it reaches `dwBufferBytes / 2`.
The half beginning at the announced byte is the one the hardware has just
started playing. -/
def dsNotifyOffset (p : OutputDeviceParameters) : Fin 2 → Nat
  | 0 => 0
  | 1 => 2 * dsBufferLenBytes p / 2

/-- The write the feeder issues for each fired event (the match in
`run_send_loop`, src/directsound.rs lines 289-298): event 0 leads to
`write(device_buffer_half_len_bytes, device_buffer_half_len_bytes, ..)`,
event 1 to `write(0, device_buffer_half_len_bytes, ..)`; the length is
always one half (src/directsound.rs line 283). -/
def dsWriteOffset (p : OutputDeviceParameters) : Fin 2 → Nat
  | 0 => dsBufferLenBytes p
  | 1 => 0

/-- C7: the feeder writes exactly into the half of the ring that the fired
completion signal reports finished — the write lands at the notify offset of
the OTHER event, its byte region is disjoint from the half that just
started playing — and distinct fired events write distinct halves, so under
the alternating hardware signals the written halves alternate strictly in
round-robin order. -/
theorem ds_write_only_finished_half (p : OutputDeviceParameters)
    (hcc : 1 ≤ p.channels_count) (hcsc : 1 ≤ p.channel_sample_count) :
    (∀ e : Fin 2,
      dsWriteOffset p e = dsNotifyOffset p (1 - e) ∧
        dsWriteOffset p e + dsBufferLenBytes p ≤ 2 * dsBufferLenBytes p ∧
        ∀ x : Nat,
          dsWriteOffset p e ≤ x → x < dsWriteOffset p e + dsBufferLenBytes p →
            ¬(dsNotifyOffset p e ≤ x ∧
              x < dsNotifyOffset p e + dsBufferLenBytes p)) ∧
      ∀ es : Nat → Fin 2, (∀ k, es (k + 1) ≠ es k) →
        ∀ k, dsWriteOffset p (es (k + 1)) ≠ dsWriteOffset p (es k) := by
  have hpos : 0 < dsBufferLenBytes p := by
    unfold dsBufferLenBytes
    exact Nat.mul_pos (Nat.mul_pos hcc (by norm_num)) hcsc
  have hinj : ∀ e e' : Fin 2, dsWriteOffset p e = dsWriteOffset p e' → e = e' := by
    intro e e'
    fin_cases e <;> fin_cases e' <;> simp [dsWriteOffset] <;> omega
  constructor
  · intro e
    fin_cases e
    · refine ⟨?_, ?_, ?_⟩
      · show dsBufferLenBytes p = 2 * dsBufferLenBytes p / 2
        omega
      · show dsBufferLenBytes p + dsBufferLenBytes p ≤ 2 * dsBufferLenBytes p
        omega
      · intro x h1 h2 hmem
        revert h1 h2 hmem
        show dsBufferLenBytes p ≤ x →
          x < dsBufferLenBytes p + dsBufferLenBytes p →
            ¬(0 ≤ x ∧ x < 0 + dsBufferLenBytes p)
        omega
    · refine ⟨?_, ?_, ?_⟩
      · show 0 = (0 : Nat)
        rfl
      · show 0 + dsBufferLenBytes p ≤ 2 * dsBufferLenBytes p
        omega
      · intro x h1 h2 hmem
        revert h1 h2 hmem
        show 0 ≤ x → x < 0 + dsBufferLenBytes p →
          ¬(2 * dsBufferLenBytes p / 2 ≤ x ∧
            x < 2 * dsBufferLenBytes p / 2 + dsBufferLenBytes p)
        omega
  · intro es halt k heq
    exact halt k (hinj (es (k + 1)) (es k) heq)

/-- Witness for C7 at the scenario parameters. -/
theorem ds_write_only_finished_half_witness :
    (∀ e : Fin 2,
      dsWriteOffset scenarioParams e = dsNotifyOffset scenarioParams (1 - e) ∧
        dsWriteOffset scenarioParams e + dsBufferLenBytes scenarioParams ≤
          2 * dsBufferLenBytes scenarioParams ∧
        ∀ x : Nat,
          dsWriteOffset scenarioParams e ≤ x →
            x < dsWriteOffset scenarioParams e + dsBufferLenBytes scenarioParams →
              ¬(dsNotifyOffset scenarioParams e ≤ x ∧
                x < dsNotifyOffset scenarioParams e +
                  dsBufferLenBytes scenarioParams)) ∧
      ∀ es : Nat → Fin 2, (∀ k, es (k + 1) ≠ es k) →
        ∀ k, dsWriteOffset scenarioParams (es (k + 1)) ≠
          dsWriteOffset scenarioParams (es k) :=
  ds_write_only_finished_half scenarioParams (by decide) (by decide)

/-- Settings applied to the `AAudioStreamBuilder` by
`AAudioOutputDevice::new` (src/aaudio.rs lines 25-31): each field records
the argument of the corresponding `set_` call, `none` meaning the code
never invokes that setter. The code sets the buffer capacity to
`channel_sample_count` frames and never fixes a per-callback frame count
(there is no `set_frames_per_data_callback` call). -/
structure AAudioBuilderConfig where
  bufferCapacityInFrames : Option Nat
  channelCount : Option Nat
  framesPerDataCallback : Option Nat
  formatIsF32 : Bool
  directionIsOutput : Bool
  callbacksSet : Bool
deriving DecidableEq

/-- The builder configuration requested by `AAudioOutputDevice::new`
(src/aaudio.rs lines 25-31). -/
def aaudioBuilderConfig (p : OutputDeviceParameters) : AAudioBuilderConfig :=
  { bufferCapacityInFrames := some p.channel_sample_count
    channelCount := some p.channels_count
    framesPerDataCallback := none
    formatIsF32 := true
    directionIsOutput := true
    callbacksSet := true }

/-- The contents the k-th producer invocation leaves in the period-sized
queue region handed to it by the AAudio data callback (src/aaudio.rs lines
39-56): the region is prefilled with zeros, has length
`channel_sample_count * channels_count`, and the producer overwrites it. -/
def aaudioChunk (p : OutputDeviceParameters) (producer : Nat → List ℚ)
    (k : Nat) : List ℚ :=
  List.takeD (p.channel_sample_count * p.channels_count) (producer k) 0

/-- The fill loop of the AAudio data callback (src/aaudio.rs lines 36-57):
while the queue holds fewer than `num_samples_per_channel` frames
(`n > queue.len() / channels_count`), extend it at the BACK by one producer
period. The state is the queue plus the next producer invocation index;
`fuel` bounds the trips (the Rust loop runs until the condition fails). -/
def aaudioFillLoop (p : OutputDeviceParameters) (producer : Nat → List ℚ)
    (n : Nat) : Nat → List ℚ × Nat → List ℚ × Nat
  | 0, s => s
  | fuel + 1, (queue, k) =>
    if queue.length / p.channels_count < n then
      aaudioFillLoop p producer n fuel (queue ++ aaudioChunk p producer k, k + 1)
    else (queue, k)

/-- The output copy loop of the AAudio data callback (src/aaudio.rs lines
59-68): each of the `n * channels_count` native slots receives
`samples_queue.pop_back()` — the LAST element of the queue. An empty queue
is a panic in the code (`expect("Queue underflow!")`); the model yields 0
there, a case the theorems below never reach. Returns the native output in
slot order and the remaining queue. -/
def popBackN : Nat → List ℚ → List ℚ × List ℚ
  | 0, q => ([], q)
  | m + 1, q => ((q.getLast?.getD 0) :: (popBackN m q.dropLast).1,
      (popBackN m q.dropLast).2)

/-- The AAudio data callback (src/aaudio.rs lines 34-71) for a native
request of `n` frames: fill the queue from the producer, then pop the
output from the back of the queue. Returns the native output samples in
slot order, the remaining queue, and the next producer invocation index. -/
def aaudioDataCallback (p : OutputDeviceParameters) (producer : Nat → List ℚ)
    (n : Nat) (queue : List ℚ) (k : Nat) : List ℚ × List ℚ × Nat :=
  ((popBackN (n * p.channels_count) (aaudioFillLoop p producer n (n + 1) (queue, k)).1).1,
    (popBackN (n * p.channels_count) (aaudioFillLoop p producer n (n + 1) (queue, k)).1).2,
    (aaudioFillLoop p producer n (n + 1) (queue, k)).2)

theorem popBackN_length (m : Nat) :
    ∀ q : List ℚ, (popBackN m q).1.length = m := by
  induction m with
  | zero => intro q; rfl
  | succ m ih =>
    intro q
    unfold popBackN
    simp [ih q.dropLast]

/-- Stereo parameters with a two-frame period, for the concrete AAudio
refutation. -/
def aaudioExampleParams : OutputDeviceParameters :=
  { sample_rate := 44100, channels_count := 2, channel_sample_count := 2 }

/-- A producer that writes the interleaved frame-major sequence 1,2,3,4 on
every invocation. -/
def exampleProducer : Nat → List ℚ := fun _ => [1, 2, 3, 4]

/-- C2: refuted by the AAudio backend. For a stereo two-frame period and a
native request of two frames, the producer fills the queue with
`[1, 2, 3, 4]` but the native buffer receives `[4, 3, 2, 1]`: the pop-back
loop delivers the produced samples in REVERSE order, so the i-th produced
sample does not occupy the i-th native slot. -/
theorem aaudio_reverses_sample_order :
    (aaudioDataCallback aaudioExampleParams exampleProducer 2 [] 0).1 =
        [4, 3, 2, 1] ∧
      exampleProducer 0 = [1, 2, 3, 4] ∧
      (aaudioDataCallback aaudioExampleParams exampleProducer 2 [] 0).1 ≠
        exampleProducer 0 ∧
      (aaudioDataCallback aaudioExampleParams exampleProducer 2 [] 0).1 =
        (exampleProducer 0).reverse := by
  refine ⟨by decide, rfl, by decide, by decide⟩

/-- The scenario parameters doubled: `2 * channel_sample_count`. -/
def doubledPeriod (p : OutputDeviceParameters) : Nat :=
  2 * p.channel_sample_count

/-- C8 counterexample: at the scenario parameters the session requests a
native buffer capacity of exactly `channel_sample_count = 4410` frames —
NOT at least double the period (`2 * 4410 = 8820`) — and fixes no
per-callback frame count at all. -/
theorem aaudio_capacity_not_doubled :
    (aaudioBuilderConfig scenarioParams).bufferCapacityInFrames = some 4410 ∧
      doubledPeriod scenarioParams = 8820 ∧
      ¬(∀ c, (aaudioBuilderConfig scenarioParams).bufferCapacityInFrames = some c →
        doubledPeriod scenarioParams ≤ c) ∧
      (aaudioBuilderConfig scenarioParams).framesPerDataCallback = none := by
  refine ⟨rfl, rfl, ?_, rfl⟩
  intro h
  have := h 4410 rfl
  revert this
  decide

/-- C8 (amended): on open the session requests a buffer capacity of exactly
`channel_sample_count` frames, sets the channel count, and does not request
a per-callback frame count; instead the data callback adapts to whatever
frame count `n` the native side requests, always producing exactly
`n * channels_count` output samples. -/
theorem aaudio_builder_settings (p : OutputDeviceParameters) :
    (aaudioBuilderConfig p).bufferCapacityInFrames =
        some p.channel_sample_count ∧
      (aaudioBuilderConfig p).channelCount = some p.channels_count ∧
      (aaudioBuilderConfig p).framesPerDataCallback = none ∧
      ∀ (producer : Nat → List ℚ) (n : Nat) (queue : List ℚ) (k : Nat),
        (aaudioDataCallback p producer n queue k).1.length =
          n * p.channels_count := by
  refine ⟨rfl, rfl, rfl, ?_⟩
  intro producer n queue k
  unfold aaudioDataCallback
  exact popBackN_length (n * p.channels_count) _

end Tinyaudio
